import Mathlib

/-!
Shallow embedding of the `ranger_robot` binding module
(`src/python/ugv_sdk/ranger_robot.cpp`) and of the spec-described CAN
protocol core it wraps (the `RangerRobot` class, the message structs and
the state aggregator live in `ugv_sdk` headers that are not part of this
tree; where a claim depends on them they are modelled from the spec and
marked as such).

Conventions of the embedding:
- `std::chrono::steady_clock::time_point` is stored as its tick count in
  nanoseconds, a signed 64-bit integer, modelled as an `Int` that every
  store wraps into the interval `[-2^63, 2^63)` (two's-complement
  semantics of the 64-bit representation).
- C++ integer division (`duration_cast`) truncates toward zero, modelled
  by `Int.tdiv`.
- A pybind11 setter that can throw is modelled as returning the resulting
  record together with `Option PyError`: `none` means the call returned
  normally, `some e` means it raised `e`.  Because the C++ setters mutate
  the record in place, the record component of the result is meaningful
  even when an error is raised (it is the partially mutated record).
- Python objects passed into an actuator-array setter are modelled by
  `PyObj`; `l[i].cast<T>()` is the corresponding `castHS`/`castLS`, which
  fails (raises `cast_error`) exactly when the object does not wrap a
  message of type `T`.
-/

/-- Modelled from the spec: `ActuatorHSStateMessage` (high-speed actuator
telemetry: rpm, current, driver voltage/temperature, motor temperature).
The struct itself is bound by `BindActuatorHSStateMessage`, whose
definition is not under `src/`; field widths/scales are not recoverable
from the binding surface (spec section 9), so the numeric fields are
modelled as integers. -/
structure ActuatorHSStateMessage where
  rpm : Int
  current : Int
  driver_voltage : Int
  driver_temperature : Int
  motor_temperature : Int
deriving DecidableEq

/-- Modelled from the spec: `ActuatorLSStateMessage` (low-speed actuator
telemetry: angle/position feedback, fault flags). -/
structure ActuatorLSStateMessage where
  angle : Int
  fault_flags : Int
deriving DecidableEq

/-- Modelled from the spec: `SystemStateMessage` (control mode, error
flags, battery voltage). -/
structure SystemStateMessage where
  control_mode : Int
  error_flags : Int
  battery_voltage : Int
deriving DecidableEq

/-- Modelled from the spec: `MotionStateMessage` (linear velocity,
steering angle, angular velocity readback). -/
structure MotionStateMessage where
  linear_velocity : Int
  steering_angle : Int
  angular_velocity : Int
deriving DecidableEq

/-- Modelled from the spec: `LightStateMessage` (front/rear light
mode and value). -/
structure LightStateMessage where
  front_mode : Int
  front_value : Int
  rear_mode : Int
  rear_value : Int
deriving DecidableEq

/-- Modelled from the spec: `RcStateMessage` (remote-control per-channel
values). -/
structure RcStateMessage where
  channels : Fin 8 → Int

/-- Modelled from the spec: `BmsBasicMessage` (battery voltage, current,
remaining percentage, temperature, alarms). -/
structure BmsBasicMessage where
  voltage : Int
  current : Int
  battery_soc : Int
  temperature : Int
  alarm_flags : Int
deriving DecidableEq

/-- Modelled from the spec: odometry accumulators of `RangerCoreState`
(distance and angular displacement). -/
structure OdometryMessage where
  linear_distance : Int
  angular_displacement : Int
deriving DecidableEq

/- ### The three aggregate records (`RangerCoreState`,
`RangerActuatorState`, `RangerCommonSensorState`).

The `time_stamp` field of each record is a
`std::chrono::steady_clock::time_point`; here it is the 64-bit
nanosecond tick count of that time point. -/

/-- `RangerCoreState`: aggregate of system/motion/light/mode/rc/odometry
plus a monotonic-clock timestamp (fields as bound at
`ranger_robot.cpp:31-50`). -/
structure RangerCoreState where
  time_stamp : Int
  system_state : SystemStateMessage
  motion_state : MotionStateMessage
  light_state : LightStateMessage
  motion_mode_state : Int
  rc_state : RcStateMessage
  odometry : OdometryMessage

/-- `RangerActuatorState`: motor angle/speed arrays plus the two
fixed-size-4 actuator telemetry arrays and a timestamp (fields as bound
at `ranger_robot.cpp:52-91`).  The C-style arrays
`actuator_hs_state[4]` / `actuator_ls_state[4]` are modelled as functions
from `Fin 4`. -/
structure RangerActuatorState where
  time_stamp : Int
  motor_angles : Fin 4 → Int
  motor_speeds : Fin 4 → Int
  actuator_hs_state : Fin 4 → ActuatorHSStateMessage
  actuator_ls_state : Fin 4 → ActuatorLSStateMessage

/-- `RangerCommonSensorState`: BMS state plus a timestamp (fields as
bound at `ranger_robot.cpp:93-107`). -/
structure RangerCommonSensorState where
  time_stamp : Int
  bms_basic_state : BmsBasicMessage

/- ### Timestamp conversion (`ranger_robot.cpp:33-44`, `54-65`, `95-106`).

The three `time_stamp` properties have byte-for-byte identical lambdas,
so they share the two conversion functions below. -/

/-- Wrap an integer into the signed 64-bit range `[-2^63, 2^63)`,
the two's-complement behaviour of the `int64_t` tick count. -/
def toInt64 (x : Int) : Int :=
  (x + 9223372036854775808) % 18446744073709551616 - 9223372036854775808

/-- Getter side: the count of
`duration_cast<milliseconds>(t.time_since_epoch())` — C++
`duration_cast` from nanoseconds to milliseconds divides the tick count
by `10^6` truncating toward zero. -/
def msOfTick (t : Int) : Int := Int.tdiv t 1000000

/-- Setter side: `steady_clock::time_point(milliseconds(ms))` — the
millisecond count is converted to the clock's nanosecond ticks by
multiplying by `10^6` on the 64-bit signed representation. -/
def tickOfMs (ms : Int) : Int := toInt64 (ms * 1000000)

/-- `time_stamp` property getter of `RangerCoreState`
(`ranger_robot.cpp:34-39`). -/
def RangerCoreState.time_stamp_get (s : RangerCoreState) : Int :=
  msOfTick s.time_stamp

/-- `time_stamp` property setter of `RangerCoreState`
(`ranger_robot.cpp:40-44`). -/
def RangerCoreState.time_stamp_set (s : RangerCoreState) (ms : Int) :
    RangerCoreState :=
  { s with time_stamp := tickOfMs ms }

/-- `time_stamp` property getter of `RangerActuatorState`
(`ranger_robot.cpp:55-60`). -/
def RangerActuatorState.time_stamp_get (s : RangerActuatorState) : Int :=
  msOfTick s.time_stamp

/-- `time_stamp` property setter of `RangerActuatorState`
(`ranger_robot.cpp:61-65`). -/
def RangerActuatorState.time_stamp_set (s : RangerActuatorState) (ms : Int) :
    RangerActuatorState :=
  { s with time_stamp := tickOfMs ms }

/-- `time_stamp` property getter of `RangerCommonSensorState`
(`ranger_robot.cpp:96-101`). -/
def RangerCommonSensorState.time_stamp_get (s : RangerCommonSensorState) : Int :=
  msOfTick s.time_stamp

/-- `time_stamp` property setter of `RangerCommonSensorState`
(`ranger_robot.cpp:102-106`). -/
def RangerCommonSensorState.time_stamp_set (s : RangerCommonSensorState)
    (ms : Int) : RangerCommonSensorState :=
  { s with time_stamp := tickOfMs ms }

/- ### Default-constructed records (`py::init<>()` value-initializes). -/

/-- Default-constructed `RangerCoreState` (`py::init<>()`,
`ranger_robot.cpp:32`). -/
def initCoreState : RangerCoreState :=
  { time_stamp := 0
    system_state := ⟨0, 0, 0⟩
    motion_state := ⟨0, 0, 0⟩
    light_state := ⟨0, 0, 0, 0⟩
    motion_mode_state := 0
    rc_state := ⟨fun _ => 0⟩
    odometry := ⟨0, 0⟩ }

/-- Default-constructed `RangerActuatorState` (`py::init<>()`,
`ranger_robot.cpp:53`). -/
def initActuatorState : RangerActuatorState :=
  { time_stamp := 0
    motor_angles := fun _ => 0
    motor_speeds := fun _ => 0
    actuator_hs_state := fun _ => ⟨0, 0, 0, 0, 0⟩
    actuator_ls_state := fun _ => ⟨0, 0⟩ }

/-- Default-constructed `RangerCommonSensorState` (`py::init<>()`,
`ranger_robot.cpp:94`). -/
def initCommonSensorState : RangerCommonSensorState :=
  { time_stamp := 0
    bms_basic_state := ⟨0, 0, 0, 0, 0⟩ }

/- ### The actuator array properties (`ranger_robot.cpp:68-91`).

`actuator_hs_state` / `actuator_ls_state` are exposed as properties whose
getter converts the C array of 4 messages to a Python list and whose
setter converts a Python list back, throwing `std::runtime_error` when
the list length is not 4 and `pybind11::cast_error` when an element is
not convertible to the message type.  The setter writes the slots one at
a time, in index order, directly into the record. -/

/-- A Python object handed to an actuator-array setter: it either wraps
an `ActuatorHSStateMessage`, wraps an `ActuatorLSStateMessage`, or is
some other Python value. -/
inductive PyObj where
  | hs (m : ActuatorHSStateMessage)
  | ls (m : ActuatorLSStateMessage)
  | other
deriving DecidableEq

/-- The exception raised by a failing actuator-array setter:
`std::runtime_error("List size must be 4")` for a wrong-length list, or
`pybind11::cast_error` when `l[i].cast<T>()` fails. -/
inductive PyError where
  | lengthError
  | castError
deriving DecidableEq

/-- `obj.cast<ActuatorHSStateMessage>()`: succeeds exactly when the
object wraps a high-speed actuator message. -/
def castHS : PyObj → Option ActuatorHSStateMessage
  | PyObj.hs m => some m
  | _ => none

/-- `obj.cast<ActuatorLSStateMessage>()`: succeeds exactly when the
object wraps a low-speed actuator message. -/
def castLS : PyObj → Option ActuatorLSStateMessage
  | PyObj.ls m => some m
  | _ => none

/-- The loop indices `i = 0, 1, 2, 3` of the setter loops
(`for (size_t i = 0; i < 4; ++i)`). -/
def loopIndices : List (Fin 4) := [0, 1, 2, 3]

/-- In-place write of one high-speed actuator slot:
`s.actuator_hs_state[i] = m`. -/
def writeHsSlot (s : RangerActuatorState) (i : Fin 4)
    (m : ActuatorHSStateMessage) : RangerActuatorState :=
  { s with actuator_hs_state := Function.update s.actuator_hs_state i m }

/-- In-place write of one low-speed actuator slot:
`s.actuator_ls_state[i] = m`. -/
def writeLsSlot (s : RangerActuatorState) (i : Fin 4)
    (m : ActuatorLSStateMessage) : RangerActuatorState :=
  { s with actuator_ls_state := Function.update s.actuator_ls_state i m }

/-- The body of the HS setter loop over the remaining `(index, element)`
pairs: each iteration casts the element and stores it into its slot; a
failing cast raises `cast_error` at that point, leaving the writes
already performed in place. -/
def writeHsLoop (s : RangerActuatorState) :
    List (Fin 4 × PyObj) → RangerActuatorState × Option PyError
  | [] => (s, none)
  | (i, o) :: rest =>
    match castHS o with
    | none => (s, some PyError.castError)
    | some m => writeHsLoop (writeHsSlot s i m) rest

/-- The body of the LS setter loop, as `writeHsLoop`. -/
def writeLsLoop (s : RangerActuatorState) :
    List (Fin 4 × PyObj) → RangerActuatorState × Option PyError
  | [] => (s, none)
  | (i, o) :: rest =>
    match castLS o with
    | none => (s, some PyError.castError)
    | some m => writeLsLoop (writeLsSlot s i m) rest

/-- `actuator_hs_state` property setter (`ranger_robot.cpp:73-79`):
`if (l.size() != 4) throw std::runtime_error("List size must be 4");`
then the cast-and-store loop over `i = 0..3`. -/
def actuator_hs_state_set (s : RangerActuatorState) (l : List PyObj) :
    RangerActuatorState × Option PyError :=
  if l.length = 4 then writeHsLoop s (loopIndices.zip l)
  else (s, some PyError.lengthError)

/-- `actuator_ls_state` property setter (`ranger_robot.cpp:85-91`). -/
def actuator_ls_state_set (s : RangerActuatorState) (l : List PyObj) :
    RangerActuatorState × Option PyError :=
  if l.length = 4 then writeLsLoop s (loopIndices.zip l)
  else (s, some PyError.lengthError)

/-- `actuator_hs_state` property getter (`ranger_robot.cpp:69-72`):
`py::list(py::make_iterator(std::begin(...), std::end(...)))`, the array
slots in index order. -/
def actuator_hs_state_get (s : RangerActuatorState) :
    List ActuatorHSStateMessage :=
  List.ofFn s.actuator_hs_state

/-- `actuator_ls_state` property getter (`ranger_robot.cpp:81-84`). -/
def actuator_ls_state_get (s : RangerActuatorState) :
    List ActuatorLSStateMessage :=
  List.ofFn s.actuator_ls_state

/- ### The RangerRobot client session.

The `RangerRobot` class itself (`ugv_sdk/mobile_robot/ranger_robot.hpp`)
is not under `src/`; only its binding surface is.  Its behaviour is
modelled from the spec (sections 4.2, 4.5, 6): a session holds the
construction-time model hint, the commanded-mode flag and the frames
handed to the transport so far. -/

/-- One CAN frame handed to the transport: an arbitration ID plus a
payload.  The literal ID/byte layout is not recoverable from the binding
surface (spec section 9), so payload entries are kept as the scaled
rational command values. -/
structure Frame where
  arb_id : Nat
  payload : List ℚ
deriving DecidableEq

/-- Modelled from the spec: the wire-protocol revision (versions named
V1/V2, spec section 2). -/
inductive ProtocolVersion where
  | v1
  | v2
deriving DecidableEq

/-- Modelled from the spec: a `RangerRobot` session.  `version_reply`
describes the bus the session is attached to: `none` if no
version-bearing frame ever arrives, `some (t, v)` if one arrives `t`
seconds after the request announcing version `v` (spec section 4.2). -/
structure RobotSession where
  is_mini_v1 : Bool
  commanded_mode_enabled : Bool
  sent_frames : List Frame
  version_reply : Option (Int × ProtocolVersion)

/-- Modelled from the spec: the error surfaced by a rejected command
(invalid-argument condition, spec section 7). -/
inductive CmdError where
  | invalidArgument
deriving DecidableEq

/-- Modelled from the spec: `RangerRobot(is_mini_v1)` constructs a fresh
session with the model-version hint, commanded mode off and nothing
sent. -/
def mkRangerRobot (hint : Bool) : RobotSession :=
  { is_mini_v1 := hint
    commanded_mode_enabled := false
    sent_frames := []
    version_reply := none }

/-- Modelled from the spec: the frame that enables commanded mode
(arbitration ID is a placeholder, spec section 9). -/
def enableCommandFrame : Frame := { arb_id := 1057, payload := [1] }

/-- Modelled from the spec: `EnableCommandedMode` sends the enabling
command once and records that commanded mode is active (spec
section 4.5). -/
def enable_commanded_mode (st : RobotSession) : RobotSession :=
  { st with
    commanded_mode_enabled := true
    sent_frames := st.sent_frames ++ [enableCommandFrame] }

/-- Modelled from the spec: the mechanical steering limit (rad) used to
validate `set_motion_command`.  The literal value is not recoverable
from the binding surface; the spec constrains it to admit `0.2` and
reject `99.0` (spec section 8). -/
def max_steer_angle : ℚ := 698 / 1000

/-- Modelled from the spec: the codec encodes a motion command into a
frame handed to the transport (ID and scaling are placeholders, spec
sections 4.1 and 9). -/
def encodeMotionCommand (linear_vel steer_angle angular_vel : ℚ) :
    List Frame :=
  [{ arb_id := 273, payload := [linear_vel, steer_angle, angular_vel] }]

/-- Modelled from the spec: `SetMotionCommand` validates the steer angle
against the mechanical limits before encoding; an out-of-range value
raises an invalid-argument condition and hands nothing to the transport;
an in-range command is encoded and its frames are handed to the
transport (spec sections 4.5 and 8). -/
def set_motion_command (st : RobotSession)
    (linear_vel steer_angle angular_vel : ℚ) :
    RobotSession × Option CmdError :=
  if steer_angle < -max_steer_angle ∨ max_steer_angle < steer_angle then
    (st, some CmdError.invalidArgument)
  else
    ({ st with
        sent_frames :=
          st.sent_frames ++ encodeMotionCommand linear_vel steer_angle angular_vel },
      none)

/-- Modelled from the spec: `RequestVersion(timeout_sec)` accepts the
first version-bearing reply within `timeout_sec` seconds, and fails with
a timeout (`none`) otherwise (spec section 4.2). -/
def request_version_core (st : RobotSession) (timeout_sec : Int) :
    Option ProtocolVersion :=
  match st.version_reply with
  | none => none
  | some (arrival, v) => if arrival ≤ timeout_sec then some v else none

/- ### The Python-binding call surface with its keyword defaults
(`ranger_robot.cpp:110-136`).  An omitted optional argument is the
`none` case; a passed argument is `some`. -/

/-- `RangerRobot.__init__` binding (`ranger_robot.cpp:111-113`):
`py::arg("is_mini_v1") = false`. -/
def rangerRobot_new (is_mini_v1 : Option Bool) : RobotSession :=
  mkRangerRobot (is_mini_v1.getD false)

/-- `request_version` binding (`ranger_robot.cpp:119-121`):
`py::arg("timeout_sec") = 3`. -/
def request_version (st : RobotSession) (timeout_sec : Option Int) :
    Option ProtocolVersion :=
  request_version_core st (timeout_sec.getD 3)

/-- `set_motion_command` binding (`ranger_robot.cpp:132-136`):
`py::arg("angular_vel") = 0.0`. -/
def set_motion_command_binding (st : RobotSession)
    (linear_vel steer_angle : ℚ) (angular_vel : Option ℚ) :
    RobotSession × Option CmdError :=
  set_motion_command st linear_vel steer_angle (angular_vel.getD 0)

/- ### The State Aggregator (spec sections 3 and 4.3).

The aggregator and its merge operation live in the `ugv_sdk` core, not
under `src/`; they are modelled from the spec: `merge` replaces exactly
the fields corresponding to the incoming message kind (actuator messages
replace the single wheel-indexed slot; out-of-range wheel indices are
dropped) and refreshes that aggregate's timestamp to the merge time. -/

/-- Modelled from the spec: a decoded typed protocol message, one of the
seven message kinds of spec section 3, with the codec-extracted wheel
index for actuator messages. -/
inductive TypedMessage where
  | system (m : SystemStateMessage)
  | motion (m : MotionStateMessage)
  | light (m : LightStateMessage)
  | rc (m : RcStateMessage)
  | actuatorHS (wheel : Nat) (m : ActuatorHSStateMessage)
  | actuatorLS (wheel : Nat) (m : ActuatorLSStateMessage)
  | bms (m : BmsBasicMessage)

/-- The three aggregates owned by the State Aggregator (spec
section 3). -/
structure Aggregates where
  core : RangerCoreState
  actuator : RangerActuatorState
  sensor : RangerCommonSensorState

/-- Modelled from the spec: the State Aggregator's `merge(TypedMessage)`
at merge time `now` (a monotonic tick): it updates exactly the aggregate
fields corresponding to the message kind and refreshes that aggregate's
timestamp; an actuator message with wheel index outside 0-3 is rejected
and dropped (spec section 4.3). -/
def merge (ag : Aggregates) (m : TypedMessage) (now : Int) : Aggregates :=
  match m with
  | TypedMessage.system msg =>
    { ag with core := { ag.core with system_state := msg, time_stamp := now } }
  | TypedMessage.motion msg =>
    { ag with core := { ag.core with motion_state := msg, time_stamp := now } }
  | TypedMessage.light msg =>
    { ag with core := { ag.core with light_state := msg, time_stamp := now } }
  | TypedMessage.rc msg =>
    { ag with core := { ag.core with rc_state := msg, time_stamp := now } }
  | TypedMessage.actuatorHS wheel msg =>
    if h : wheel < 4 then
      { ag with actuator :=
          { ag.actuator with
              actuator_hs_state :=
                Function.update ag.actuator.actuator_hs_state ⟨wheel, h⟩ msg
              time_stamp := now } }
    else ag
  | TypedMessage.actuatorLS wheel msg =>
    if h : wheel < 4 then
      { ag with actuator :=
          { ag.actuator with
              actuator_ls_state :=
                Function.update ag.actuator.actuator_ls_state ⟨wheel, h⟩ msg
              time_stamp := now } }
    else ag
  | TypedMessage.bms msg =>
    { ag with sensor := { ag.sensor with bms_basic_state := msg, time_stamp := now } }

/-- Erase the three aggregate timestamps; two `Aggregates` are "identical
except for the timestamps" when their images under this map are equal. -/
def clearTimestamps (ag : Aggregates) : Aggregates :=
  { core := { ag.core with time_stamp := 0 }
    actuator := { ag.actuator with time_stamp := 0 }
    sensor := { ag.sensor with time_stamp := 0 } }

/- ### Arithmetic helper lemmas about truncating division (the semantics
of `duration_cast`) and 64-bit wrapping. -/

/-- Truncating remainder negates with its dividend. -/
theorem tmod_neg_left (a b : Int) : Int.tmod (-a) b = -Int.tmod a b := by
  rw [Int.tmod_def, Int.tmod_def, Int.neg_tdiv]
  ring

/-- Truncating remainder of a non-positive dividend is non-positive. -/
theorem tmod_nonpos_of_nonpos (b : Int) {a : Int} (h : a ≤ 0) :
    Int.tmod a b ≤ 0 := by
  have h1 : (0:Int) ≤ -a := by omega
  have h2 := Int.tmod_nonneg (a := -a) b h1
  rw [tmod_neg_left] at h2
  omega

/-- Truncating remainder is strictly above `-b` for positive `b`. -/
theorem tmod_gt_neg {a b : Int} (hb : 0 < b) : -b < Int.tmod a b := by
  rcases le_or_lt 0 a with h | h
  · have h1 := Int.tmod_nonneg (a := a) b h
    omega
  · have h1 : (0:Int) ≤ -a := by omega
    have h2 := Int.tmod_lt_of_pos (-a) hb
    rw [tmod_neg_left] at h2
    omega

/-- The decomposition of a nanosecond instant `t` into whole
milliseconds `q` and a sub-millisecond component `r` discarded by
truncation toward zero: `r` is below one millisecond in magnitude and
carries the sign of `t`.  Two instants are "within the same millisecond"
exactly when they decompose over the same `q`. -/
def msDecomp (t q r : Int) : Prop :=
  t = q * 1000000 + r ∧
    ((0 ≤ t ∧ 0 ≤ r ∧ r < 1000000) ∨ (t ≤ 0 ∧ -1000000 < r ∧ r ≤ 0))

instance (t q r : Int) : Decidable (msDecomp t q r) := by
  unfold msDecomp
  infer_instance

/-- Truncation toward zero realizes the decomposition. -/
theorem msDecomp_tdiv_tmod (t : Int) :
    msDecomp t (Int.tdiv t 1000000) (Int.tmod t 1000000) := by
  have ht := Int.tdiv_add_tmod t 1000000
  refine ⟨by omega, ?_⟩
  rcases le_or_lt 0 t with h | h
  · exact Or.inl ⟨h, Int.tmod_nonneg 1000000 h,
      Int.tmod_lt_of_pos t (by norm_num)⟩
  · exact Or.inr ⟨by omega, tmod_gt_neg (by norm_num),
      tmod_nonpos_of_nonpos 1000000 (by omega)⟩

/-- Uniqueness half, non-negative case: a valid decomposition of a
non-negative instant determines the truncated quotient. -/
theorem tdiv_millis_of_decomp_nonneg {t q r : Int} (heq : t = q * 1000000 + r)
    (ht : 0 ≤ t) (hr0 : 0 ≤ r) (hr1 : r < 1000000) :
    Int.tdiv t 1000000 = q := by
  rw [Int.tdiv_eq_ediv ht (by norm_num)]
  rw [show t = r + q * 1000000 by omega]
  rw [Int.add_mul_ediv_right r q (by norm_num : (1000000:Int) ≠ 0)]
  rw [Int.ediv_eq_zero_of_lt hr0 hr1]
  omega

/-- Uniqueness: any valid decomposition determines the truncated
quotient, hence two instants within the same millisecond truncate to the
same millisecond count. -/
theorem tdiv_millis_of_decomp {t q r : Int} (h : msDecomp t q r) :
    Int.tdiv t 1000000 = q := by
  rcases h with ⟨heq, ⟨ht, hr0, hr1⟩ | ⟨ht, hr0, hr1⟩⟩
  · exact tdiv_millis_of_decomp_nonneg heq ht hr0 hr1
  · have h1 : Int.tdiv (-t) 1000000 = -q :=
      tdiv_millis_of_decomp_nonneg (t := -t) (q := -q) (r := -r)
        (by omega) (by omega) (by omega) (by omega)
    rw [Int.neg_tdiv] at h1
    omega

/-- Wrapping is the identity on the representable 64-bit range. -/
theorem toInt64_eq_self {x : Int} (h1 : -9223372036854775808 ≤ x)
    (h2 : x < 9223372036854775808) : toInt64 x = x := by
  unfold toInt64
  rw [Int.emod_eq_of_lt (by omega) (by omega)]
  omega

/-- Millisecond round-trip through the tick representation, in the
absence of 64-bit overflow. -/
theorem msOfTick_tickOfMs {ms : Int}
    (h1 : -9223372036854775808 ≤ ms * 1000000)
    (h2 : ms * 1000000 < 9223372036854775808) :
    msOfTick (tickOfMs ms) = ms := by
  unfold msOfTick tickOfMs
  rw [toInt64_eq_self h1 h2]
  exact Int.mul_tdiv_cancel ms (by norm_num)

/-- When the conversion of `ms` to nanosecond ticks overflows the 64-bit
representation, the round-trip cannot return `ms`. -/
theorem msOfTick_tickOfMs_ne {ms : Int}
    (hov : ms * 1000000 < -9223372036854775808 ∨
      9223372036854775808 ≤ ms * 1000000) :
    msOfTick (tickOfMs ms) ≠ ms := by
  intro hEq
  unfold msOfTick tickOfMs toInt64 at hEq
  have ht := Int.tdiv_add_tmod
    ((ms * 1000000 + 9223372036854775808) % 18446744073709551616 -
      9223372036854775808) 1000000
  rw [hEq] at ht
  have hb1 : -1000000 < Int.tmod
      ((ms * 1000000 + 9223372036854775808) % 18446744073709551616 -
        9223372036854775808) 1000000 :=
    tmod_gt_neg (by norm_num)
  have hb2 : Int.tmod
      ((ms * 1000000 + 9223372036854775808) % 18446744073709551616 -
        9223372036854775808) 1000000 < 1000000 :=
    Int.tmod_lt_of_pos _ (by norm_num)
  omega

/-- Read-then-write of a representable instant discards exactly the
sub-millisecond component. -/
theorem tickOfMs_msOfTick {t : Int} (h1 : -9223372036854775808 ≤ t)
    (h2 : t < 9223372036854775808) :
    tickOfMs (msOfTick t) = t - Int.tmod t 1000000 := by
  unfold tickOfMs msOfTick
  have ht := Int.tdiv_add_tmod t 1000000
  rw [show Int.tdiv t 1000000 * 1000000 = t - Int.tmod t 1000000 by omega]
  have hb1 : -1000000 < Int.tmod t 1000000 := tmod_gt_neg (by norm_num)
  have hb2 : Int.tmod t 1000000 < 1000000 :=
    Int.tmod_lt_of_pos _ (by norm_num)
  rcases le_or_lt 0 t with hpos | hneg
  · have hs := Int.tmod_nonneg (a := t) 1000000 hpos
    exact toInt64_eq_self (by omega) (by omega)
  · have hs := tmod_nonpos_of_nonpos (a := t) 1000000 (by omega)
    exact toInt64_eq_self (by omega) (by omega)

/- ### Concrete records and lists used as witnesses and
counterexamples. -/

/-- A distinguishable high-speed actuator message. -/
def hsProbe : ActuatorHSStateMessage := ⟨7, 0, 0, 0, 0⟩

/-- A length-4 list whose second element is not convertible to
`ActuatorHSStateMessage`: the setter loop stores slot 0 and then raises
`cast_error` at index 1. -/
def badHsList : List PyObj :=
  [PyObj.hs hsProbe, PyObj.other, PyObj.hs hsProbe, PyObj.hs hsProbe]

/-- A length-4 list of high-speed actuator messages. -/
def goodHsList : List PyObj :=
  [PyObj.hs ⟨1, 2, 3, 4, 5⟩, PyObj.hs ⟨6, 7, 8, 9, 10⟩,
    PyObj.hs ⟨11, 12, 13, 14, 15⟩, PyObj.hs ⟨16, 17, 18, 19, 20⟩]

/-- A length-4 list of low-speed actuator messages. -/
def goodLsList : List PyObj :=
  [PyObj.ls ⟨1, 2⟩, PyObj.ls ⟨3, 4⟩, PyObj.ls ⟨5, 6⟩, PyObj.ls ⟨7, 8⟩]

/-- A list of length four is literally a four-element list. -/
theorem length_eq_four {α : Type} {l : List α} (h : l.length = 4) :
    ∃ a b c d, l = [a, b, c, d] := by
  rcases l with _ | ⟨a, _ | ⟨b, _ | ⟨c, _ | ⟨d, _ | ⟨e, t⟩⟩⟩⟩⟩ <;>
    simp only [List.length_cons, List.length_nil] at h <;>
    first
    | exact ⟨a, b, c, d, rfl⟩
    | omega

/-- C4: reading `actuator_hs_state` or `actuator_ls_state` always yields
a list of exactly 4 elements, on every reachable record. -/
theorem C4_getters_length_four (s : RangerActuatorState) :
    (actuator_hs_state_get s).length = 4 ∧
    (actuator_ls_state_get s).length = 4 := by
  constructor <;>
    simp [actuator_hs_state_get, actuator_ls_state_get]

/-- C1: writing a list whose length is not 4 to either actuator-array
property raises (`std::runtime_error`), and writing a length-4 list of
actuator messages of the right type returns normally. -/
theorem C1_setter_length_validation (s : RangerActuatorState)
    (l : List PyObj) :
    (l.length ≠ 4 →
      actuator_hs_state_set s l = (s, some PyError.lengthError) ∧
      actuator_ls_state_set s l = (s, some PyError.lengthError)) ∧
    (l.length = 4 → (∀ o ∈ l, (castHS o).isSome) →
      (actuator_hs_state_set s l).2 = none) ∧
    (l.length = 4 → (∀ o ∈ l, (castLS o).isSome) →
      (actuator_ls_state_set s l).2 = none) := by
  refine ⟨fun h => ⟨?_, ?_⟩, ?_, ?_⟩
  · simp [actuator_hs_state_set, h]
  · simp [actuator_ls_state_set, h]
  · intro hlen hall
    obtain ⟨a, b, c, d, rfl⟩ := length_eq_four hlen
    obtain ⟨ma, hma⟩ := Option.isSome_iff_exists.mp (hall a (by simp))
    obtain ⟨mb, hmb⟩ := Option.isSome_iff_exists.mp (hall b (by simp))
    obtain ⟨mc, hmc⟩ := Option.isSome_iff_exists.mp (hall c (by simp))
    obtain ⟨md, hmd⟩ := Option.isSome_iff_exists.mp (hall d (by simp))
    simp [actuator_hs_state_set, loopIndices, writeHsLoop,
      hma, hmb, hmc, hmd]
  · intro hlen hall
    obtain ⟨a, b, c, d, rfl⟩ := length_eq_four hlen
    obtain ⟨ma, hma⟩ := Option.isSome_iff_exists.mp (hall a (by simp))
    obtain ⟨mb, hmb⟩ := Option.isSome_iff_exists.mp (hall b (by simp))
    obtain ⟨mc, hmc⟩ := Option.isSome_iff_exists.mp (hall c (by simp))
    obtain ⟨md, hmd⟩ := Option.isSome_iff_exists.mp (hall d (by simp))
    simp [actuator_ls_state_set, loopIndices, writeLsLoop,
      hma, hmb, hmc, hmd]

/-- C1 witness: the empty list is rejected by both setters on a concrete
record; the concrete length-4 message lists are accepted. -/
theorem C1_witness :
    (actuator_hs_state_set initActuatorState [] =
        (initActuatorState, some PyError.lengthError) ∧
      actuator_ls_state_set initActuatorState [] =
        (initActuatorState, some PyError.lengthError)) ∧
    (actuator_hs_state_set initActuatorState goodHsList).2 = none ∧
    (actuator_ls_state_set initActuatorState goodLsList).2 = none :=
  ⟨(C1_setter_length_validation initActuatorState []).1 (by decide),
    (C1_setter_length_validation initActuatorState goodHsList).2.1
      (by decide) (by decide),
    (C1_setter_length_validation initActuatorState goodLsList).2.2
      (by decide) (by decide)⟩

/-- C2 counterexample: a length-4 write whose second element is not
convertible fails, yet slot 0 has already been overwritten — the update
is not all-or-nothing. -/
theorem C2_counterexample :
    (actuator_hs_state_set initActuatorState badHsList).2 =
        some PyError.castError ∧
      (actuator_hs_state_set initActuatorState badHsList).1.actuator_hs_state 0 ≠
        initActuatorState.actuator_hs_state 0 := by
  constructor
  · decide
  · decide

/-- C2 (amended): a write that fails the length check is rejected with
the record unchanged (all-or-nothing holds for that failure mode); but a
write that fails because an element is not convertible is not
all-or-nothing — there is a failing length-4 write that leaves the
record altered. -/
theorem C2_failure_atomicity (s : RangerActuatorState) (l : List PyObj)
    (h : l.length ≠ 4) :
    actuator_hs_state_set s l = (s, some PyError.lengthError) ∧
    actuator_ls_state_set s l = (s, some PyError.lengthError) ∧
    ∃ (s0 : RangerActuatorState) (l0 : List PyObj),
      l0.length = 4 ∧ (actuator_hs_state_set s0 l0).2.isSome ∧
        (actuator_hs_state_set s0 l0).1 ≠ s0 := by
  refine ⟨by simp [actuator_hs_state_set, h],
    by simp [actuator_ls_state_set, h],
    initActuatorState, badHsList, by decide, by decide, ?_⟩
  intro heq
  have h0 := congrArg (fun st => st.actuator_hs_state 0) heq
  exact absurd h0 (by decide)

/-- C2 witness: the length-check half applied to the empty list on a
concrete record. -/
theorem C2_witness :
    actuator_hs_state_set initActuatorState [] =
        (initActuatorState, some PyError.lengthError) ∧
      actuator_ls_state_set initActuatorState [] =
        (initActuatorState, some PyError.lengthError) :=
  ⟨(C2_failure_atomicity initActuatorState [] (by decide)).1,
    (C2_failure_atomicity initActuatorState [] (by decide)).2.1⟩

/- ### Timestamp claims. -/

/-- C3 counterexample: at `ms = 10^13` the millisecond-to-nanosecond
conversion overflows the 64-bit tick count, and set-then-get of
`time_stamp` does not return `ms`. -/
theorem C3_counterexample :
    RangerCoreState.time_stamp_get
        (RangerCoreState.time_stamp_set initCoreState 10000000000000) ≠
      10000000000000 := by
  decide

/-- C3 (amended): on all three aggregate records, setting `time_stamp`
to `ms` and reading it back returns exactly `ms` whenever the
nanosecond tick count `ms * 10^6` is representable in the signed 64-bit
tick type. -/
theorem C3_timestamp_roundtrip (c : RangerCoreState)
    (a : RangerActuatorState) (n : RangerCommonSensorState) (ms : Int)
    (h1 : -9223372036854775808 ≤ ms * 1000000)
    (h2 : ms * 1000000 < 9223372036854775808) :
    RangerCoreState.time_stamp_get (RangerCoreState.time_stamp_set c ms) = ms ∧
    RangerActuatorState.time_stamp_get
        (RangerActuatorState.time_stamp_set a ms) = ms ∧
    RangerCommonSensorState.time_stamp_get
        (RangerCommonSensorState.time_stamp_set n ms) = ms :=
  ⟨msOfTick_tickOfMs h1 h2, msOfTick_tickOfMs h1 h2,
    msOfTick_tickOfMs h1 h2⟩

/-- C3 witness: the round-trip at `ms = 123456789` on the three
default-constructed records. -/
theorem C3_witness :
    RangerCoreState.time_stamp_get
        (RangerCoreState.time_stamp_set initCoreState 123456789) = 123456789 ∧
    RangerActuatorState.time_stamp_get
        (RangerActuatorState.time_stamp_set initActuatorState 123456789) =
      123456789 ∧
    RangerCommonSensorState.time_stamp_get
        (RangerCommonSensorState.time_stamp_set initCommonSensorState
          123456789) = 123456789 :=
  C3_timestamp_roundtrip initCoreState initActuatorState
    initCommonSensorState 123456789 (by decide) (by decide)

/-- C8: the `time_stamp` getter truncates the stored instant toward zero
to whole milliseconds — the stored tick count decomposes as the returned
millisecond count times `10^6` plus a discarded sub-millisecond
remainder carrying the sign of the instant; two stored instants that
decompose within the same millisecond read back as the same integer; and
a read-then-write of the property drops exactly the sub-millisecond
component of a representable instant. -/
theorem C8_getter_truncates (s1 s2 : RangerCoreState)
    (a : RangerActuatorState) (q r1 r2 : Int) :
    msDecomp s1.time_stamp (RangerCoreState.time_stamp_get s1)
        (Int.tmod s1.time_stamp 1000000) ∧
    msDecomp a.time_stamp (RangerActuatorState.time_stamp_get a)
        (Int.tmod a.time_stamp 1000000) ∧
    (msDecomp s1.time_stamp q r1 → msDecomp s2.time_stamp q r2 →
      RangerCoreState.time_stamp_get s1 = RangerCoreState.time_stamp_get s2) ∧
    (-9223372036854775808 ≤ s1.time_stamp →
      s1.time_stamp < 9223372036854775808 →
      (RangerCoreState.time_stamp_set s1
          (RangerCoreState.time_stamp_get s1)).time_stamp =
        s1.time_stamp - Int.tmod s1.time_stamp 1000000) := by
  refine ⟨msDecomp_tdiv_tmod _, msDecomp_tdiv_tmod _, ?_, ?_⟩
  · intro h1 h2
    exact (tdiv_millis_of_decomp h1).trans (tdiv_millis_of_decomp h2).symm
  · intro h1 h2
    exact tickOfMs_msOfTick h1 h2

/-- Concrete core-state instant 2500001 ns (2 ms + 500001 ns). -/
def coreA : RangerCoreState := { initCoreState with time_stamp := 2500001 }

/-- Concrete core-state instant 2500999 ns, within the same millisecond
as `coreA`. -/
def coreB : RangerCoreState := { initCoreState with time_stamp := 2500999 }

/-- C8 witness: two concrete instants inside millisecond 2 read back as
the same integer, and read-then-write on one of them truncates its tick
count to a whole millisecond. -/
theorem C8_witness :
    RangerCoreState.time_stamp_get coreA =
        RangerCoreState.time_stamp_get coreB ∧
      (RangerCoreState.time_stamp_set coreA
          (RangerCoreState.time_stamp_get coreA)).time_stamp =
        coreA.time_stamp - Int.tmod coreA.time_stamp 1000000 :=
  ⟨(C8_getter_truncates coreA coreB initActuatorState 2 500001 500999).2.2.1
      (by decide) (by decide),
    (C8_getter_truncates coreA coreB initActuatorState 2 500001
        500999).2.2.2 (by decide) (by decide)⟩

/-- C9 counterexample: the negative value `ms = -10^13` is accepted by
the setter, but the conversion to ticks overflows and the subsequent
read returns a different (positive) value, refuting the claim's
"a subsequent read returns that value" for every integer. -/
theorem C9_counterexample :
    RangerCommonSensorState.time_stamp_get
        (RangerCommonSensorState.time_stamp_set initCommonSensorState
          (-10000000000000)) ≠ -10000000000000 := by
  decide

/-- C9 (amended): the setter performs no range validation — every
64-bit `ms`, negative values included, is stored unconditionally as the
wrapped tick count `toInt64 (ms * 10^6)`; the subsequent read returns
`ms` (also when negative) exactly on the overflow-free range of the
tick representation. -/
theorem C9_setter_no_validation (c : RangerCoreState)
    (n : RangerCommonSensorState) (ms : Int) :
    ((RangerCoreState.time_stamp_set c ms).time_stamp =
        toInt64 (ms * 1000000) ∧
      (RangerCommonSensorState.time_stamp_set n ms).time_stamp =
        toInt64 (ms * 1000000)) ∧
    (-9223372036854775808 ≤ ms * 1000000 →
      ms * 1000000 < 9223372036854775808 →
      RangerCoreState.time_stamp_get (RangerCoreState.time_stamp_set c ms) =
          ms ∧
        RangerCommonSensorState.time_stamp_get
            (RangerCommonSensorState.time_stamp_set n ms) = ms) :=
  ⟨⟨rfl, rfl⟩, fun h1 h2 =>
    ⟨msOfTick_tickOfMs h1 h2, msOfTick_tickOfMs h1 h2⟩⟩

/-- C9 witness: the negative in-range value `ms = -5000` is accepted
without raising and reads back as `-5000`. -/
theorem C9_witness :
    RangerCoreState.time_stamp_get
        (RangerCoreState.time_stamp_set initCoreState (-5000)) = -5000 ∧
      RangerCommonSensorState.time_stamp_get
        (RangerCommonSensorState.time_stamp_set initCommonSensorState
          (-5000)) = -5000 :=
  (C9_setter_no_validation initCoreState initCommonSensorState
      (-5000)).2 (by decide) (by decide)

/-- C10: when `ms * 10^6` overflows the signed 64-bit tick
representation, the stored tick count is the value wrapped modulo
`2^64`, and set-then-get of `time_stamp` does not return `ms`. -/
theorem C10_overflow_wraps (s : RangerCoreState)
    (a : RangerActuatorState) (ms : Int)
    (hov : ms * 1000000 < -9223372036854775808 ∨
      9223372036854775808 ≤ ms * 1000000) :
    ((RangerCoreState.time_stamp_set s ms).time_stamp =
        toInt64 (ms * 1000000) ∧
      RangerCoreState.time_stamp_get (RangerCoreState.time_stamp_set s ms) ≠
        ms) ∧
    ((RangerActuatorState.time_stamp_set a ms).time_stamp =
        toInt64 (ms * 1000000) ∧
      RangerActuatorState.time_stamp_get
          (RangerActuatorState.time_stamp_set a ms) ≠ ms) :=
  ⟨⟨rfl, msOfTick_tickOfMs_ne hov⟩, ⟨rfl, msOfTick_tickOfMs_ne hov⟩⟩

/-- C10 witness: at `ms = 2 * 10^13` the tick conversion overflows and
the round-trip fails on concrete records. -/
theorem C10_witness :
    RangerCoreState.time_stamp_get
        (RangerCoreState.time_stamp_set initCoreState 20000000000000) ≠
      20000000000000 ∧
    RangerActuatorState.time_stamp_get
        (RangerActuatorState.time_stamp_set initActuatorState
          20000000000000) ≠ 20000000000000 :=
  ⟨((C10_overflow_wraps initCoreState initActuatorState 20000000000000
      (Or.inr (by decide))).1).2,
    ((C10_overflow_wraps initCoreState initActuatorState 20000000000000
      (Or.inr (by decide))).2).2⟩

/- ### Command dispatch, merge and binding defaults. -/

/-- C5: a `set_motion_command` whose steer angle lies outside the
mechanical limits raises an invalid-argument condition with the session
(in particular its transport log) unchanged, so no frame is handed to
the transport; an in-range command returns normally and appends exactly
the encoded frames to the transport log. -/
theorem C5_steer_angle_validation (st : RobotSession) (lv sa av : ℚ) :
    ((sa < -max_steer_angle ∨ max_steer_angle < sa) →
      set_motion_command st lv sa av = (st, some CmdError.invalidArgument)) ∧
    (-max_steer_angle ≤ sa → sa ≤ max_steer_angle →
      (set_motion_command st lv sa av).2 = none ∧
      (set_motion_command st lv sa av).1.sent_frames =
        st.sent_frames ++ encodeMotionCommand lv sa av) := by
  constructor
  · intro h
    simp [set_motion_command, h]
  · intro h1 h2
    have h : ¬(sa < -max_steer_angle ∨ max_steer_angle < sa) := by
      push_neg
      exact ⟨h1, h2⟩
    simp [set_motion_command, h]

/-- C5 witness: after `enable_commanded_mode()` on a fresh session,
`set_motion_command(1.0, 0.2, 0.0)` returns normally, while
`set_motion_command(1.0, 99.0, 0.0)` raises the invalid-argument
condition with nothing sent. -/
theorem C5_witness :
    set_motion_command (enable_commanded_mode (rangerRobot_new none))
        1 99 0 =
      (enable_commanded_mode (rangerRobot_new none),
        some CmdError.invalidArgument) ∧
    (set_motion_command (enable_commanded_mode (rangerRobot_new none))
        1 (1/5) 0).2 = none :=
  ⟨(C5_steer_angle_validation
        (enable_commanded_mode (rangerRobot_new none)) 1 99 0).1
      (Or.inr (by norm_num [max_steer_angle])),
    ((C5_steer_angle_validation
        (enable_commanded_mode (rangerRobot_new none)) 1 (1/5) 0).2
      (by norm_num [max_steer_angle]) (by norm_num [max_steer_angle])).1⟩

/-- C6: merging the same decoded message twice leaves every aggregate
field identical to merging it once, except for the aggregates'
timestamps. -/
theorem C6_merge_idempotent (ag : Aggregates) (m : TypedMessage)
    (t1 t2 : Int) :
    clearTimestamps (merge (merge ag m t1) m t2) =
      clearTimestamps (merge ag m t1) := by
  cases m with
  | system msg => rfl
  | motion msg => rfl
  | light msg => rfl
  | rc msg => rfl
  | bms msg => rfl
  | actuatorHS wheel msg =>
    by_cases h : wheel < 4
    · simp [merge, h, clearTimestamps, Function.update_idem]
    · simp [merge, h]
  | actuatorLS wheel msg =>
    by_cases h : wheel < 4
    · simp [merge, h, clearTimestamps, Function.update_idem]
    · simp [merge, h]

/-- C7: the binding's optional arguments carry exactly the declared
defaults — omitting `is_mini_v1` equals passing `false`, omitting
`timeout_sec` equals passing `3`, and omitting `angular_vel` equals
passing `0.0`. -/
theorem C7_keyword_defaults :
    rangerRobot_new none = rangerRobot_new (some false) ∧
    (∀ st : RobotSession, request_version st none =
      request_version st (some 3)) ∧
    (∀ (st : RobotSession) (lv sa : ℚ),
      set_motion_command_binding st lv sa none =
        set_motion_command_binding st lv sa (some 0)) :=
  ⟨rfl, fun _ => rfl, fun _ _ _ => rfl⟩
